import Mathlib

/-!
Verification of the grammers example client (`src/main.rs`).

The program is embedded shallowly: every interaction with the outside
world (console prompts, remote Telegram calls, the session file, the
update stream) is an oracle value supplied by an `Env`, and `async_main`
is a pure function from the environment to the trace of observable
effects it performs, the final value of the `sign_out` flag, and how the
process terminates (normal return, propagated error, or panic).
-/

namespace GrammersApp

/-- A two-factor password token; `hint()` in grammers returns an `Option`,
which the program unwraps. -/
structure PasswordToken where
  hint : Option String
deriving Repr, DecidableEq

/-- `grammers_client::SignInError`, restricted to the variants the program
distinguishes: `PasswordRequired(token)` versus every other error. -/
inductive SignInError where
  | passwordRequired (token : PasswordToken)
  | other (msg : String)
deriving Repr, DecidableEq

/-- `grammers_client::types::Chat`: the container variant. `user` is the
private-user variant. Identifiers are the Telegram ids. -/
inductive Chat where
  | user (id : Int)
  | group (id : Int)
  | channel (id : Int)
deriving Repr, DecidableEq

/-- An incoming message: its id, the chat it arrived in, and an optional
sender (`message.sender()`). -/
structure Message where
  id : Int
  chat : Chat
  sender : Option Chat
deriving Repr, DecidableEq

/-- `grammers_client::Update`; the program matches only `NewMessage` and
ignores every other variant via `_`. -/
inductive Update where
  | newMessage (message : Message)
  | messageEdited (message : Message)
  | messageDeleted
  | raw
deriving Repr, DecidableEq

/-- The observable effects of one run, in order of occurrence. -/
inductive Effect where
  | println (msg : String)
  | prompt (message : String)
  | requestLoginCode (phone : String)
  | signIn (code : String)
  | checkPassword (password : String)
  | saveSession
  | getFullUser (id : Int)
  | logWarn (msg : String)
  | logError (msg : String)
  | signOutDisconnect
deriving Repr, DecidableEq

/-- How the process ends: `Ok(())`, a propagated `Err` (via `?`), or a
`panic!`. -/
inductive RunResult where
  | ok
  | err (msg : String)
  | panicked (msg : String)
deriving Repr, DecidableEq

/-- Oracle results for every external interaction of `async_main`.
`updates` is the finite trace of successive `next_update` results; once
it is exhausted the stream reports the end-of-sequence marker `None`. -/
structure Env where
  loadSession : Except String Unit
  connect : Except String Unit
  isAuthorized : Except String Bool
  phoneInput : Except String String
  requestLoginCode : Except String Unit
  codeInput : Except String String
  signInResult : Except SignInError Unit
  passwordInput : Except String String
  checkPasswordResult : Except String Unit
  saveResult : Except String Unit
  updates : List (Except String (Option Update))
  fullUserResult : Int → Except String Unit
  driveResult : Except String Unit

/-- Result of a whole run: the effect trace, the final value of the
`sign_out` flag, and the termination mode. -/
structure RunOutput where
  effects : List Effect
  sign_out : Bool
  result : RunResult
deriving Repr

/-- Rust `str::trim`: the line with leading and trailing whitespace
removed (executable model over the character list). -/
def strTrim (s : String) : String :=
  ⟨((s.data.dropWhile Char.isWhitespace).reverse.dropWhile Char.isWhitespace).reverse⟩

/-- Body of the `while let` loop for one update (`main.rs` lines 100-119):
only a `NewMessage` in a `Group` chat whose sender is a private `User`
triggers `get_full_user`, whose outcome is logged. -/
def handleUpdate (env : Env) : Update → List Effect
  | .newMessage message =>
    match message.chat with
    | .group _ =>
      match message.sender with
      | some (.user uid) =>
        Effect.getFullUser uid ::
          (match env.fullUserResult uid with
           | .ok _ => [Effect.logWarn "get_full_user success"]
           | .error e => [Effect.logError e])
      | _ => []
    | _ => []
  | _ => []

/-- The dispatch loop `while let Some(update) = client_handle.next_update().await?`
(`main.rs` lines 99-120), consuming the finite oracle trace of
`next_update` results: `Ok(None)` (or an exhausted trace) ends the loop
cleanly, `Err` propagates out of the loop, `Ok(Some(u))` is handled and
the loop continues. -/
def dispatchLoop (env : Env) : List (Except String (Option Update)) → List Effect × Except String Unit
  | [] => ([], .ok ())
  | .error e :: _ => ([], .error e)
  | .ok none :: _ => ([], .ok ())
  | .ok (some u) :: rest =>
    let r := dispatchLoop env rest
    (handleUpdate env u ++ r.1, r.2)

/-- `main.rs` lines 76-86: `println!("Signed in!")`, then
`client.session().save_to_file(SESSION_FILE)`; on failure a note is
printed and the `sign_out` flag is set. Returns the accumulated effects
and the flag. -/
def afterSignIn (env : Env) (effs : List Effect) : List Effect × Bool :=
  let effs := effs ++ [Effect.println "Signed in!", Effect.saveSession]
  match env.saveResult with
  | .ok _ => (effs, false)
  | .error e =>
    (effs ++ [Effect.println
      ("NOTE: failed to save the session, will sign out when done: " ++ e)], true)

/-- The sign-in block (`main.rs` lines 55-87), executed when the loaded
session is not authorized. `.ok (effs, sign_out)` means the block
completed; `.error (effs, r)` means the function terminated inside it
(propagated `?` error or `panic!`). -/
def authPhase (env : Env) : Except (List Effect × RunResult) (List Effect × Bool) :=
  let effs0 := [Effect.println "Signing in...",
                Effect.prompt "Enter your phone number (international format): "]
  match env.phoneInput with
  | .error e => .error (effs0, .err e)
  | .ok phone =>
    let effs1 := effs0 ++ [Effect.requestLoginCode phone]
    match env.requestLoginCode with
    | .error e => .error (effs1, .err e)
    | .ok _ =>
      let effs2 := effs1 ++ [Effect.prompt "Enter the code you received: "]
      match env.codeInput with
      | .error e => .error (effs2, .err e)
      | .ok code =>
        let effs3 := effs2 ++ [Effect.signIn code]
        match env.signInResult with
        | .ok _ => .ok (afterSignIn env effs3)
        | .error (.passwordRequired token) =>
          match token.hint with
          | none => .error (effs3, .panicked "Option unwrap on None (password hint)")
          | some hint =>
            let effs4 := effs3 ++
              [Effect.prompt ("Enter the password (hint " ++ hint ++ "): ")]
            match env.passwordInput with
            | .error e => .error (effs4, .err e)
            | .ok password =>
              let effs5 := effs4 ++ [Effect.checkPassword (strTrim password)]
              match env.checkPasswordResult with
              | .error e => .error (effs5, .err e)
              | .ok _ => .ok (afterSignIn env effs5)
        | .error (.other e) => .error (effs3, .panicked e)

/-- `main.rs` lines 99-128: the dispatch loop, then (only if the loop
ended without a propagated error) the conditional
`client_handle.sign_out_disconnect()` and the final
`network_handle.await??`. -/
def runLoopAndShutdown (env : Env) (effs : List Effect) (sign_out : Bool) : RunOutput :=
  let r := dispatchLoop env env.updates
  match r.2 with
  | .error e => ⟨effs ++ r.1, sign_out, .err e⟩
  | .ok _ =>
    let effs := effs ++ r.1 ++ (if sign_out then [Effect.signOutDisconnect] else [])
    match env.driveResult with
    | .ok _ => ⟨effs, sign_out, .ok⟩
    | .error e => ⟨effs, sign_out, .err e⟩

/-- The whole of `async_main` (`main.rs` lines 30-129): connect (loading
or creating the session), check authorization, run the sign-in block if
needed, then the dispatch loop and shutdown. -/
def async_main (env : Env) : RunOutput :=
  let effs0 := [Effect.println "Connecting to Telegram..."]
  match env.loadSession with
  | .error e => ⟨effs0, false, .err e⟩
  | .ok _ =>
    match env.connect with
    | .error e => ⟨effs0, false, .err e⟩
    | .ok _ =>
      let effs1 := effs0 ++ [Effect.println "Connected!"]
      match env.isAuthorized with
      | .error e => ⟨effs1, false, .err e⟩
      | .ok true => runLoopAndShutdown env effs1 false
      | .ok false =>
        match authPhase env with
        | .error (effs, r) => ⟨effs1 ++ effs, false, r⟩
        | .ok (effs, so) => runLoopAndShutdown env (effs1 ++ effs) so

/-- The filter of `main.rs` lines 100-105: `some uid` exactly when the
update is a new message in a `Group` chat whose sender is present and is
the private-user variant with identifier `uid`. -/
def eventMatches : Update → Option Int
  | .newMessage m =>
    match m.chat, m.sender with
    | .group _, some (.user uid) => some uid
    | _, _ => none
  | _ => none

/-- Recognizes the password prompt among the effects (its message is the
only one beginning this way). -/
def isPasswordPrompt : Effect → Bool
  | .prompt m => "Enter the password (hint ".data.isPrefixOf m.data
  | _ => false

/-- Number of password prompts in a trace. -/
def passwordPromptCount (effs : List Effect) : Nat :=
  (effs.filter isPasswordPrompt).length

/-- Effects that the dispatch loop body can emit. -/
def isLoopEffect : Effect → Bool
  | .getFullUser _ => true
  | .logWarn _ => true
  | .logError _ => true
  | _ => false

theorem handleUpdate_loopEffect (env : Env) (u : Update) :
    ∀ e ∈ handleUpdate env u, isLoopEffect e = true := by
  intro e he
  cases u with
  | newMessage m =>
    rcases m with ⟨mid, chat, sender⟩
    cases chat with
    | group gid =>
      cases sender with
      | none => simp [handleUpdate] at he
      | some s =>
        cases s with
        | user uid =>
          cases hr : env.fullUserResult uid with
          | ok _ =>
            simp [handleUpdate, hr] at he
            rcases he with h | h <;> subst h <;> rfl
          | error m =>
            simp [handleUpdate, hr] at he
            rcases he with h | h <;> subst h <;> rfl
        | group _ => simp [handleUpdate] at he
        | channel _ => simp [handleUpdate] at he
    | user _ => simp [handleUpdate] at he
    | channel _ => simp [handleUpdate] at he
  | messageEdited m => simp [handleUpdate] at he
  | messageDeleted => simp [handleUpdate] at he
  | raw => simp [handleUpdate] at he

theorem dispatchLoop_loopEffect (env : Env) :
    ∀ l, ∀ e ∈ (dispatchLoop env l).1, isLoopEffect e = true := by
  intro l
  induction l with
  | nil => intro e he; simp [dispatchLoop] at he
  | cons hd tl ih =>
    intro e he
    cases hd with
    | error m => simp [dispatchLoop] at he
    | ok o =>
      cases o with
      | none => simp [dispatchLoop] at he
      | some u =>
        simp [dispatchLoop] at he
        rcases he with h | h
        · exact handleUpdate_loopEffect env u e h
        · exact ih e h

/-- The run has reached the sign-in call: connection succeeded, the loaded
session was not authorized, and phone / code-request / code steps all
succeeded with the given console lines. -/
def reachesAuth (env : Env) (p c : String) : Prop :=
  env.loadSession = .ok () ∧ env.connect = .ok () ∧ env.isAuthorized = .ok false ∧
  env.phoneInput = .ok p ∧ env.requestLoginCode = .ok () ∧ env.codeInput = .ok c

theorem afterSignIn_spec (env : Env) (effs0 : List Effect)
    (hso : Effect.signOutDisconnect ∉ effs0) :
    (afterSignIn env effs0).2 =
      (match env.saveResult with | .ok _ => false | .error _ => true) ∧
    Effect.signOutDisconnect ∉ (afterSignIn env effs0).1 ∧
    Effect.saveSession ∈ (afterSignIn env effs0).1 := by
  cases hs : env.saveResult with
  | ok u => simp [afterSignIn, hs, hso]
  | error e => simp [afterSignIn, hs, hso]

theorem authPhase_ok_spec (env : Env) (effs : List Effect) (so : Bool)
    (h : authPhase env = .ok (effs, so)) :
    so = (match env.saveResult with | .ok _ => false | .error _ => true) ∧
    Effect.signOutDisconnect ∉ effs ∧ Effect.saveSession ∈ effs := by
  unfold authPhase at h
  cases hp : env.phoneInput with
  | error e => simp [hp] at h
  | ok phone =>
    cases hrc : env.requestLoginCode with
    | error e => simp [hp, hrc] at h
    | ok _ =>
      cases hc : env.codeInput with
      | error e => simp [hp, hrc, hc] at h
      | ok code =>
        cases hsi : env.signInResult with
        | ok _ =>
          cases hs : env.saveResult with
          | ok u =>
            simp [hp, hrc, hc, hsi, afterSignIn, hs] at h
            obtain ⟨h1, h2⟩ := h
            subst h1; subst h2
            simp [hs]
          | error e =>
            simp [hp, hrc, hc, hsi, afterSignIn, hs] at h
            obtain ⟨h1, h2⟩ := h
            subst h1; subst h2
            simp [hs]
        | error se =>
          cases se with
          | other m => simp [hp, hrc, hc, hsi] at h
          | passwordRequired token =>
            cases hh : token.hint with
            | none => simp [hp, hrc, hc, hsi, hh] at h
            | some hint =>
              cases hpw : env.passwordInput with
              | error e => simp [hp, hrc, hc, hsi, hh, hpw] at h
              | ok password =>
                cases hcp : env.checkPasswordResult with
                | error e => simp [hp, hrc, hc, hsi, hh, hpw, hcp] at h
                | ok _ =>
                  cases hs : env.saveResult with
                  | ok u =>
                    simp [hp, hrc, hc, hsi, hh, hpw, hcp, afterSignIn, hs] at h
                    obtain ⟨h1, h2⟩ := h
                    subst h1; subst h2
                    simp [hs]
                  | error e =>
                    simp [hp, hrc, hc, hsi, hh, hpw, hcp, afterSignIn, hs] at h
                    obtain ⟨h1, h2⟩ := h
                    subst h1; subst h2
                    simp [hs]

@[simp] theorem pwdPrompt_println (m : String) :
    isPasswordPrompt (Effect.println m) = false := rfl

@[simp] theorem pwdPrompt_requestLoginCode (s : String) :
    isPasswordPrompt (Effect.requestLoginCode s) = false := rfl

@[simp] theorem pwdPrompt_signIn (s : String) :
    isPasswordPrompt (Effect.signIn s) = false := rfl

@[simp] theorem pwdPrompt_checkPassword (s : String) :
    isPasswordPrompt (Effect.checkPassword s) = false := rfl

@[simp] theorem pwdPrompt_saveSession :
    isPasswordPrompt Effect.saveSession = false := rfl

@[simp] theorem pwdPrompt_getFullUser (i : Int) :
    isPasswordPrompt (Effect.getFullUser i) = false := rfl

@[simp] theorem pwdPrompt_logWarn (m : String) :
    isPasswordPrompt (Effect.logWarn m) = false := rfl

@[simp] theorem pwdPrompt_logError (m : String) :
    isPasswordPrompt (Effect.logError m) = false := rfl

@[simp] theorem pwdPrompt_signOutDisconnect :
    isPasswordPrompt Effect.signOutDisconnect = false := rfl

@[simp] theorem pwdPrompt_phoneMsg :
    isPasswordPrompt
      (Effect.prompt "Enter your phone number (international format): ") = false := by
  decide

@[simp] theorem pwdPrompt_codeMsg :
    isPasswordPrompt (Effect.prompt "Enter the code you received: ") = false := by
  decide

@[simp] theorem pwdPrompt_passwordMsg (hint : String) :
    isPasswordPrompt
      (Effect.prompt ("Enter the password (hint " ++ hint ++ "): ")) = true := by
  simp [isPasswordPrompt, List.append_assoc]

theorem loopEffect_not_pwd (e : Effect) (h : isLoopEffect e = true) :
    isPasswordPrompt e = false := by
  cases e <;> simp_all [isLoopEffect]

theorem dispatchLoop_no_signOut (env : Env) (l : List (Except String (Option Update))) :
    Effect.signOutDisconnect ∉ (dispatchLoop env l).1 := by
  intro hmem
  have h := dispatchLoop_loopEffect env l _ hmem
  simp [isLoopEffect] at h

theorem pwdCount_append (a b : List Effect) :
    passwordPromptCount (a ++ b) = passwordPromptCount a + passwordPromptCount b := by
  simp [passwordPromptCount, List.filter_append]

theorem dispatchLoop_pwdCount (env : Env) (l : List (Except String (Option Update))) :
    passwordPromptCount (dispatchLoop env l).1 = 0 := by
  simp only [passwordPromptCount, List.length_eq_zero, List.filter_eq_nil_iff]
  intro e he
  have h := dispatchLoop_loopEffect env l e he
  simp [loopEffect_not_pwd e h]

theorem runLoopAndShutdown_sign_out (env : Env) (effs : List Effect) (so : Bool) :
    (runLoopAndShutdown env effs so).sign_out = so := by
  rcases hl : (dispatchLoop env env.updates).2 with e | u
  · simp [runLoopAndShutdown, hl]
  · cases hd : env.driveResult <;> simp [runLoopAndShutdown, hl, hd]

theorem runLoopAndShutdown_effects_error (env : Env) (effs : List Effect) (so : Bool)
    (e : String) (hl : (dispatchLoop env env.updates).2 = .error e) :
    (runLoopAndShutdown env effs so).effects = effs ++ (dispatchLoop env env.updates).1 ∧
    (runLoopAndShutdown env effs so).result = .err e := by
  simp [runLoopAndShutdown, hl]

theorem runLoopAndShutdown_effects_ok (env : Env) (effs : List Effect) (so : Bool)
    (hl : (dispatchLoop env env.updates).2 = .ok ()) :
    (runLoopAndShutdown env effs so).effects =
      effs ++ (dispatchLoop env env.updates).1 ++
        (if so then [Effect.signOutDisconnect] else []) := by
  cases hd : env.driveResult <;> simp [runLoopAndShutdown, hl, hd]

theorem runLoopAndShutdown_signOut_mem (env : Env) (effs : List Effect) (so : Bool)
    (h0 : Effect.signOutDisconnect ∉ effs) :
    Effect.signOutDisconnect ∈ (runLoopAndShutdown env effs so).effects ↔
      so = true ∧ (dispatchLoop env env.updates).2 = .ok () := by
  rcases hl : (dispatchLoop env env.updates).2 with e | u
  · obtain ⟨he, _⟩ := runLoopAndShutdown_effects_error env effs so e hl
    rw [he]
    simp [h0, dispatchLoop_no_signOut env env.updates]
  · cases u
    rw [runLoopAndShutdown_effects_ok env effs so hl]
    cases so <;> simp [h0, dispatchLoop_no_signOut env env.updates]

theorem runLoopAndShutdown_pwdCount (env : Env) (effs : List Effect) (so : Bool) :
    passwordPromptCount (runLoopAndShutdown env effs so).effects =
      passwordPromptCount effs := by
  rcases hl : (dispatchLoop env env.updates).2 with e | u
  · obtain ⟨he, _⟩ := runLoopAndShutdown_effects_error env effs so e hl
    rw [he, pwdCount_append, dispatchLoop_pwdCount]
    simp
  · cases u
    rw [runLoopAndShutdown_effects_ok env effs so hl, pwdCount_append, pwdCount_append,
      dispatchLoop_pwdCount]
    cases so <;> simp [passwordPromptCount]

theorem runLoopAndShutdown_mem_iff (env : Env) (effs : List Effect) (so : Bool)
    (e : Effect) (h1 : isLoopEffect e = false)
    (h2 : e ≠ Effect.signOutDisconnect) :
    e ∈ (runLoopAndShutdown env effs so).effects ↔ e ∈ effs := by
  have hloop : e ∉ (dispatchLoop env env.updates).1 := by
    intro h
    have := dispatchLoop_loopEffect env env.updates e h
    rw [h1] at this
    exact Bool.false_ne_true this
  rcases hl : (dispatchLoop env env.updates).2 with er | u
  · obtain ⟨he, _⟩ := runLoopAndShutdown_effects_error env effs so er hl
    rw [he]
    simp [List.mem_append, hloop]
  · cases u
    rw [runLoopAndShutdown_effects_ok env effs so hl]
    cases so <;> simp [List.mem_append, hloop, h2]

theorem runLoopAndShutdown_not_mem (env : Env) (effs : List Effect) (so : Bool)
    (e : Effect) (h0 : e ∉ effs) (h1 : isLoopEffect e = false)
    (h2 : e ≠ Effect.signOutDisconnect) :
    e ∉ (runLoopAndShutdown env effs so).effects := by
  rw [runLoopAndShutdown_mem_iff env effs so e h1 h2]
  exact h0

theorem async_main_auth (env : Env) (p c : String) (hr : reachesAuth env p c)
    (effs : List Effect) (so : Bool) (ha : authPhase env = .ok (effs, so)) :
    async_main env = runLoopAndShutdown env
      ([Effect.println "Connecting to Telegram...",
        Effect.println "Connected!"] ++ effs) so := by
  obtain ⟨h1, h2, h3, _h4, _h5, _h6⟩ := hr
  simp [async_main, h1, h2, h3, ha]

theorem async_main_auth_error (env : Env) (p c : String) (hr : reachesAuth env p c)
    (effs : List Effect) (r : RunResult) (ha : authPhase env = .error (effs, r)) :
    async_main env = ⟨[Effect.println "Connecting to Telegram...",
                       Effect.println "Connected!"] ++ effs, false, r⟩ := by
  obtain ⟨h1, h2, h3, _h4, _h5, _h6⟩ := hr
  simp [async_main, h1, h2, h3, ha]

theorem async_main_authorized (env : Env)
    (h1 : env.loadSession = .ok ()) (h2 : env.connect = .ok ())
    (h3 : env.isAuthorized = .ok true) :
    async_main env = runLoopAndShutdown env
      [Effect.println "Connecting to Telegram...", Effect.println "Connected!"] false := by
  simp [async_main, h1, h2, h3]

/-- Recognizes the follow-up remote call among the effects. -/
def isGetFullUser : Effect → Bool
  | .getFullUser _ => true
  | _ => false

/-- A concrete environment: authorized run with an empty update stream. -/
def envW : Env :=
  { loadSession := .ok (), connect := .ok (), isAuthorized := .ok false,
    phoneInput := .ok "+10000000000\n", requestLoginCode := .ok (),
    codeInput := .ok "12345\n", signInResult := .ok (),
    passwordInput := .ok "hunter2\n", checkPasswordResult := .ok (),
    saveResult := .ok (), updates := [], fullUserResult := fun _ => .ok (),
    driveResult := .ok () }

/-- A concrete environment whose `getFullUser` calls all fail. -/
def envErr : Env :=
  { envW with fullUserResult := fun _ => .error "FLOOD_WAIT_X" }

/-- A concrete matching message: new message in a group from user 42. -/
def msgW : Message := ⟨1, .group 99, some (.user 42)⟩

/-- Claim C3: for every incoming event in the dispatch loop, if the event
is not a new-message event, or its chat is not the `Group` variant, or its
sender is absent, or its sender is not the private-user variant, then no
follow-up `getFullUser` remote call is issued for that event. -/
theorem claim_C3 (env : Env) (u : Update) (h : eventMatches u = none) :
    ∀ i : Int, Effect.getFullUser i ∉ handleUpdate env u := by
  have hz : handleUpdate env u = [] := by
    cases u with
    | newMessage m =>
      rcases m with ⟨mid, chat, sender⟩
      cases chat with
      | group gid =>
        cases sender with
        | none => rfl
        | some s =>
          cases s with
          | user uid => simp [eventMatches] at h
          | group _ => rfl
          | channel _ => rfl
      | user _ => rfl
      | channel _ => rfl
    | messageEdited m => rfl
    | messageDeleted => rfl
    | raw => rfl
  intro i
  simp [hz]

theorem claim_C3_witness :
    eventMatches (Update.newMessage ⟨1, .channel 7, some (.user 42)⟩) = none ∧
    Effect.getFullUser 42 ∉
      handleUpdate envW (Update.newMessage ⟨1, .channel 7, some (.user 42)⟩) :=
  ⟨rfl, claim_C3 envW (Update.newMessage ⟨1, .channel 7, some (.user 42)⟩) rfl 42⟩

/-- Claim C4: for every new-message event whose chat is the `Group`
variant and whose sender is present and is the private-user variant with
identifier `uid`, exactly one `getFullUser` remote call keyed by `uid` is
issued for that event. -/
theorem claim_C4 (env : Env) (u : Update) (uid : Int)
    (h : eventMatches u = some uid) :
    (handleUpdate env u).filter isGetFullUser = [Effect.getFullUser uid] := by
  cases u with
  | newMessage m =>
    rcases m with ⟨mid, chat, sender⟩
    cases chat with
    | group gid =>
      cases sender with
      | none => simp [eventMatches] at h
      | some s =>
        cases s with
        | user i =>
          have : i = uid := by simpa [eventMatches] using h
          subst this
          cases hr : env.fullUserResult i <;>
            simp [handleUpdate, hr, isGetFullUser]
        | group _ => simp [eventMatches] at h
        | channel _ => simp [eventMatches] at h
    | user _ => simp [eventMatches] at h
    | channel _ => simp [eventMatches] at h
  | messageEdited m => simp [eventMatches] at h
  | messageDeleted => simp [eventMatches] at h
  | raw => simp [eventMatches] at h

theorem claim_C4_witness :
    eventMatches (Update.newMessage msgW) = some 42 ∧
    (handleUpdate envW (Update.newMessage msgW)).filter isGetFullUser =
      [Effect.getFullUser 42] :=
  ⟨rfl, claim_C4 envW (Update.newMessage msgW) 42 rfl⟩

/-- Claim C5: if the follow-up `getFullUser` call for an event fails with
an `InvocationError`, the failure is recorded as a log entry and the
dispatch loop does not terminate: the remaining update stream is still
consumed exactly as before. -/
theorem claim_C5 (env : Env) (u : Update) (uid : Int) (e : String)
    (rest : List (Except String (Option Update)))
    (h : eventMatches u = some uid) (hf : env.fullUserResult uid = .error e) :
    dispatchLoop env (.ok (some u) :: rest) =
      (Effect.getFullUser uid :: Effect.logError e :: (dispatchLoop env rest).1,
       (dispatchLoop env rest).2) := by
  have hu : handleUpdate env u = [Effect.getFullUser uid, Effect.logError e] := by
    cases u with
    | newMessage m =>
      rcases m with ⟨mid, chat, sender⟩
      cases chat with
      | group gid =>
        cases sender with
        | none => simp [eventMatches] at h
        | some s =>
          cases s with
          | user i =>
            have : i = uid := by simpa [eventMatches] using h
            subst this
            simp [handleUpdate, hf]
          | group _ => simp [eventMatches] at h
          | channel _ => simp [eventMatches] at h
      | user _ => simp [eventMatches] at h
      | channel _ => simp [eventMatches] at h
    | messageEdited m => simp [eventMatches] at h
    | messageDeleted => simp [eventMatches] at h
    | raw => simp [eventMatches] at h
  simp [dispatchLoop, hu]

theorem claim_C5_witness :
    eventMatches (Update.newMessage msgW) = some 42 ∧
    envErr.fullUserResult 42 = .error "FLOOD_WAIT_X" ∧
    dispatchLoop envErr [.ok (some (Update.newMessage msgW)), .ok (some (Update.newMessage msgW))] =
      (Effect.getFullUser 42 :: Effect.logError "FLOOD_WAIT_X" ::
        (dispatchLoop envErr [.ok (some (Update.newMessage msgW))]).1,
       (dispatchLoop envErr [.ok (some (Update.newMessage msgW))]).2) :=
  ⟨rfl, rfl,
    claim_C5 envErr (Update.newMessage msgW) 42 "FLOOD_WAIT_X"
      [.ok (some (Update.newMessage msgW))] rfl rfl⟩

/-- Claim C8: the dispatch loop terminates exactly when `next_update`
stops yielding events: an exhausted stream or an `Ok(None)` end-of-sequence
marker ends the loop cleanly within one iteration, a fetch error
propagates out of the loop as the loop's result, and an actual event
continues the loop on the remaining stream. -/
theorem claim_C8 (env : Env) (e : String) (u : Update)
    (rest : List (Except String (Option Update))) :
    dispatchLoop env [] = ([], .ok ()) ∧
    dispatchLoop env (.ok none :: rest) = ([], .ok ()) ∧
    dispatchLoop env (.error e :: rest) = ([], .error e) ∧
    dispatchLoop env (.ok (some u) :: rest) =
      (handleUpdate env u ++ (dispatchLoop env rest).1, (dispatchLoop env rest).2) :=
  ⟨rfl, rfl, rfl, rfl⟩

/-- Sign-in succeeds, the session save fails, and the update stream ends
with a fetch error. -/
def envCx1 : Env :=
  { envW with saveResult := .error "DISK_FULL",
              updates := [.error "READ_ERR"] }

/-- Sign-in succeeds, the session save fails, one group message is
handled, then fetching the next update fails. -/
def envCx2 : Env :=
  { envW with saveResult := .error "PERM_DENIED",
              updates := [.ok (some (Update.newMessage msgW)), .error "CONN_RESET"] }

/-- The trace of the sign-in block of `envW` (direct success, save ok). -/
def authEffsW : List Effect :=
  [Effect.println "Signing in...",
   Effect.prompt "Enter your phone number (international format): ",
   Effect.requestLoginCode "+10000000000\n",
   Effect.prompt "Enter the code you received: ",
   Effect.signIn "12345\n",
   Effect.println "Signed in!",
   Effect.saveSession]

/-- Claim C1 (counterexample to the literal statement): in `envCx1` the
save failed (so the flag is set) and the event loop has ended — by a
fetch error — yet `sign_out_disconnect` is never invoked, because the `?`
on `next_update` returns from `async_main` before the sign-out block. -/
theorem claim_C1_counterexample :
    (async_main envCx1).sign_out = true ∧
    (async_main envCx1).result = .err "READ_ERR" ∧
    Effect.signOutDisconnect ∉ (async_main envCx1).effects := by
  refine ⟨rfl, rfl, ?_⟩
  decide

/-- Claim C1 (amended): after the sign-in block completes, if the session
save failed the flag is true, and `sign_out_disconnect` is invoked
exactly when the event loop ends cleanly (end-of-sequence marker); if the
loop ends with a fetch error that error is the process result and
sign-out is skipped; if the save succeeded the flag stays false and
`sign_out_disconnect` is never invoked. -/
theorem claim_C1 (env : Env) (p c : String) (hr : reachesAuth env p c)
    (effs : List Effect) (so : Bool) (ha : authPhase env = .ok (effs, so)) :
    ((∃ e, env.saveResult = .error e) → (async_main env).sign_out = true) ∧
    (env.saveResult = .ok () →
      (async_main env).sign_out = false ∧
      Effect.signOutDisconnect ∉ (async_main env).effects) ∧
    ((dispatchLoop env env.updates).2 = .ok () →
      ((async_main env).sign_out = true ↔
        Effect.signOutDisconnect ∈ (async_main env).effects)) ∧
    (∀ e, (dispatchLoop env env.updates).2 = .error e →
      Effect.signOutDisconnect ∉ (async_main env).effects ∧
      (async_main env).result = .err e) := by
  obtain ⟨hso, hnot, hsave⟩ := authPhase_ok_spec env effs so ha
  have hmain := async_main_auth env p c hr effs so ha
  have hpre : Effect.signOutDisconnect ∉
      ([Effect.println "Connecting to Telegram...",
        Effect.println "Connected!"] ++ effs) := by
    simp [hnot]
  refine ⟨?_, ?_, ?_, ?_⟩
  · rintro ⟨e, he⟩
    rw [hmain, runLoopAndShutdown_sign_out, hso, he]
  · intro hok
    rw [hok] at hso
    simp only at hso
    constructor
    · rw [hmain, runLoopAndShutdown_sign_out, hso]
    · rw [hmain]
      intro hmem
      rcases (runLoopAndShutdown_signOut_mem env _ so hpre).mp hmem with ⟨hfl, _⟩
      rw [hso] at hfl
      exact Bool.false_ne_true hfl
  · intro hloop
    rw [hmain, runLoopAndShutdown_sign_out,
        runLoopAndShutdown_signOut_mem env _ so hpre]
    exact ⟨fun h => ⟨h, hloop⟩, fun h => h.1⟩
  · intro e hloop
    rw [hmain]
    constructor
    · intro hmem
      rcases (runLoopAndShutdown_signOut_mem env _ so hpre).mp hmem with ⟨_, hok⟩
      rw [hloop] at hok
      simp at hok
    · exact (runLoopAndShutdown_effects_error env _ so e hloop).2

theorem claim_C1_witness :
    (async_main envW).sign_out = false ∧
    Effect.signOutDisconnect ∉ (async_main envW).effects :=
  (claim_C1 envW "+10000000000\n" "12345\n" ⟨rfl, rfl, rfl, rfl, rfl, rfl⟩
    authEffsW false rfl).2.1 rfl

/-- Claim C2 (counterexample to the literal statement): in `envCx2` the
authentication flow succeeded (the save was attempted), persisting the
session failed, and the process exits with a propagated fetch error
without ever invoking `sign_out_disconnect` — the session is neither
durably stored nor explicitly revoked. -/
theorem claim_C2_counterexample :
    Effect.saveSession ∈ (async_main envCx2).effects ∧
    envCx2.saveResult = .error "PERM_DENIED" ∧
    Effect.signOutDisconnect ∉ (async_main envCx2).effects ∧
    (async_main envCx2).result = .err "CONN_RESET" := by
  refine ⟨?_, rfl, ?_, rfl⟩ <;> decide

/-- Claim C2 (amended): after the sign-in block completes, on every exit
path exactly one of {the session save succeeded} or {the sign-out-on-exit
flag is set} holds; the sign-out itself is additionally performed exactly
when the flag is set and the event loop ends cleanly, and it is skipped
when the loop ends with a fetch error. -/
theorem claim_C2 (env : Env) (p c : String) (hr : reachesAuth env p c)
    (effs : List Effect) (so : Bool) (ha : authPhase env = .ok (effs, so)) :
    (env.saveResult = .ok () ↔ (async_main env).sign_out = false) ∧
    ((dispatchLoop env env.updates).2 = .ok () →
      ((async_main env).sign_out = true ↔
        Effect.signOutDisconnect ∈ (async_main env).effects)) ∧
    (∀ e, (dispatchLoop env env.updates).2 = .error e →
      Effect.signOutDisconnect ∉ (async_main env).effects) := by
  obtain ⟨hso, hnot, hsave⟩ := authPhase_ok_spec env effs so ha
  have hmain := async_main_auth env p c hr effs so ha
  have hpre : Effect.signOutDisconnect ∉
      ([Effect.println "Connecting to Telegram...",
        Effect.println "Connected!"] ++ effs) := by
    simp [hnot]
  refine ⟨?_, ?_, ?_⟩
  · rw [hmain, runLoopAndShutdown_sign_out]
    cases hs : env.saveResult with
    | ok u =>
      cases u
      rw [hs] at hso
      simp only at hso
      simp [hso]
    | error e =>
      rw [hs] at hso
      simp only at hso
      simp [hso]
  · intro hloop
    rw [hmain, runLoopAndShutdown_sign_out,
        runLoopAndShutdown_signOut_mem env _ so hpre]
    exact ⟨fun h => ⟨h, hloop⟩, fun h => h.1⟩
  · intro e hloop
    rw [hmain]
    intro hmem
    rcases (runLoopAndShutdown_signOut_mem env _ so hpre).mp hmem with ⟨_, hok⟩
    rw [hloop] at hok
    simp at hok

theorem claim_C2_witness :
    envW.saveResult = .ok () ↔ (async_main envW).sign_out = false :=
  (claim_C2 envW "+10000000000\n" "12345\n" ⟨rfl, rfl, rfl, rfl, rfl, rfl⟩
    authEffsW false rfl).1

theorem authPhase_pwdCount (env : Env) (p c : String)
    (h4 : env.phoneInput = .ok p) (h5 : env.requestLoginCode = .ok ())
    (h6 : env.codeInput = .ok c)
    (hh : ∀ tok, env.signInResult = .error (.passwordRequired tok) →
      tok.hint.isSome = true)
    (effs : List Effect)
    (h : (∃ so, authPhase env = .ok (effs, so)) ∨
         (∃ r, authPhase env = .error (effs, r))) :
    passwordPromptCount effs =
      (match env.signInResult with
       | .error (.passwordRequired _) => 1
       | _ => 0) := by
  cases hsi : env.signInResult with
  | ok u =>
    cases u
    rcases h with ⟨so, h⟩ | ⟨r, h⟩
    · cases hs : env.saveResult with
      | ok v =>
        simp [authPhase, h4, h5, h6, hsi, afterSignIn, hs] at h
        obtain ⟨he, _⟩ := h
        subst he
        simp [passwordPromptCount, hsi]
      | error e =>
        simp [authPhase, h4, h5, h6, hsi, afterSignIn, hs] at h
        obtain ⟨he, _⟩ := h
        subst he
        simp [passwordPromptCount, hsi]
    · cases hs : env.saveResult with
      | ok v => simp [authPhase, h4, h5, h6, hsi, afterSignIn, hs] at h
      | error e => simp [authPhase, h4, h5, h6, hsi, afterSignIn, hs] at h
  | error se =>
    cases se with
    | passwordRequired tok =>
      have hhint := hh tok hsi
      cases hhint2 : tok.hint with
      | none => rw [hhint2] at hhint; simp at hhint
      | some hint =>
        rcases h with ⟨so, h⟩ | ⟨r, h⟩
        · cases hpw : env.passwordInput with
          | error e => simp [authPhase, h4, h5, h6, hsi, hhint2, hpw] at h
          | ok password =>
            cases hcp : env.checkPasswordResult with
            | error e =>
              simp [authPhase, h4, h5, h6, hsi, hhint2, hpw, hcp] at h
            | ok w =>
              cases w
              cases hs : env.saveResult with
              | ok v =>
                simp [authPhase, h4, h5, h6, hsi, hhint2, hpw, hcp,
                  afterSignIn, hs] at h
                obtain ⟨he, _⟩ := h
                subst he
                simp [passwordPromptCount, hsi]
              | error e =>
                simp [authPhase, h4, h5, h6, hsi, hhint2, hpw, hcp,
                  afterSignIn, hs] at h
                obtain ⟨he, _⟩ := h
                subst he
                simp [passwordPromptCount, hsi]
        · cases hpw : env.passwordInput with
          | error e =>
            simp [authPhase, h4, h5, h6, hsi, hhint2, hpw] at h
            obtain ⟨he, _⟩ := h
            subst he
            simp [passwordPromptCount, hsi]
          | ok password =>
            cases hcp : env.checkPasswordResult with
            | error e =>
              simp [authPhase, h4, h5, h6, hsi, hhint2, hpw, hcp] at h
              obtain ⟨he, _⟩ := h
              subst he
              simp [passwordPromptCount, hsi]
            | ok w =>
              cases w
              cases hs : env.saveResult with
              | ok v =>
                simp [authPhase, h4, h5, h6, hsi, hhint2, hpw, hcp,
                  afterSignIn, hs] at h
              | error e =>
                simp [authPhase, h4, h5, h6, hsi, hhint2, hpw, hcp,
                  afterSignIn, hs] at h
    | other m =>
      rcases h with ⟨so, h⟩ | ⟨r, h⟩
      · simp [authPhase, h4, h5, h6, hsi] at h
      · simp [authPhase, h4, h5, h6, hsi] at h
        obtain ⟨he, _⟩ := h
        subst he
        simp [passwordPromptCount, hsi]

/-- Claim C6: when the flow reaches the sign-in call (and the password
token carries a hint, as the data model guarantees), exactly one password
prompt occurs in the whole run if and only if `sign_in` fails with
`PasswordRequired`; for any other sign-in outcome (success or other
error) zero password prompts occur. -/
theorem claim_C6 (env : Env) (p c : String) (hr : reachesAuth env p c)
    (hh : ∀ tok, env.signInResult = .error (.passwordRequired tok) →
      tok.hint.isSome = true) :
    passwordPromptCount (async_main env).effects =
      (match env.signInResult with
       | .error (.passwordRequired _) => 1
       | _ => 0) := by
  obtain ⟨h1, h2, h3, h4, h5, h6⟩ := hr
  rcases hap : authPhase env with ⟨effs, r⟩ | ⟨effs, so⟩
  · rw [async_main_auth_error env p c ⟨h1, h2, h3, h4, h5, h6⟩ effs r hap]
    show passwordPromptCount
      ([Effect.println "Connecting to Telegram...",
        Effect.println "Connected!"] ++ effs) = _
    rw [pwdCount_append,
      authPhase_pwdCount env p c h4 h5 h6 hh effs (Or.inr ⟨r, hap⟩)]
    simp [passwordPromptCount]
  · rw [async_main_auth env p c ⟨h1, h2, h3, h4, h5, h6⟩ effs so hap,
      runLoopAndShutdown_pwdCount, pwdCount_append,
      authPhase_pwdCount env p c h4 h5 h6 hh effs (Or.inl ⟨so, hap⟩)]
    simp [passwordPromptCount]

/-- Two-factor run: sign-in requires a password with hint `h1nt`, the
password line has surrounding whitespace, and everything else succeeds. -/
def envPw : Env :=
  { envW with signInResult := .error (.passwordRequired ⟨some "h1nt"⟩),
              passwordInput := .ok " hunter2 \n" }

theorem claim_C6_witness :
    passwordPromptCount (async_main envPw).effects = 1 ∧
    passwordPromptCount (async_main envW).effects = 0 := by
  constructor
  · have h := claim_C6 envPw "+10000000000\n" "12345\n"
      ⟨rfl, rfl, rfl, rfl, rfl, rfl⟩
      (by intro tok htok; simp [envPw, envW] at htok; rw [← htok]; rfl)
    simpa using h
  · have h := claim_C6 envW "+10000000000\n" "12345\n"
      ⟨rfl, rfl, rfl, rfl, rfl, rfl⟩
      (by intro tok htok; simp [envW] at htok)
    simpa using h

/-- Claim C7: if the sign-in call fails with any error other than
`PasswordRequired`, the flow panics (the process stops): the trace ends
at the `signIn` call, no password prompt occurred, no session save was
attempted, and the event loop was never entered (no `getFullUser` call
can occur). -/
theorem claim_C7 (env : Env) (p c m : String) (hr : reachesAuth env p c)
    (hsi : env.signInResult = .error (.other m)) :
    async_main env =
      ⟨[Effect.println "Connecting to Telegram...",
        Effect.println "Connected!",
        Effect.println "Signing in...",
        Effect.prompt "Enter your phone number (international format): ",
        Effect.requestLoginCode p,
        Effect.prompt "Enter the code you received: ",
        Effect.signIn c], false, .panicked m⟩ ∧
    passwordPromptCount (async_main env).effects = 0 ∧
    Effect.saveSession ∉ (async_main env).effects ∧
    (∀ i : Int, Effect.getFullUser i ∉ (async_main env).effects) := by
  obtain ⟨h1, h2, h3, h4, h5, h6⟩ := hr
  have ha : authPhase env = .error
      ([Effect.println "Signing in...",
        Effect.prompt "Enter your phone number (international format): ",
        Effect.requestLoginCode p,
        Effect.prompt "Enter the code you received: ",
        Effect.signIn c], .panicked m) := by
    simp [authPhase, h4, h5, h6, hsi]
  have hmain := async_main_auth_error env p c ⟨h1, h2, h3, h4, h5, h6⟩ _ _ ha
  rw [hmain]
  refine ⟨by simp, ?_, ?_, ?_⟩
  · show passwordPromptCount
      ([Effect.println "Connecting to Telegram...", Effect.println "Connected!"] ++
        [Effect.println "Signing in...",
         Effect.prompt "Enter your phone number (international format): ",
         Effect.requestLoginCode p,
         Effect.prompt "Enter the code you received: ",
         Effect.signIn c]) = 0
    simp [passwordPromptCount]
  · show Effect.saveSession ∉ _ ++ _
    simp
  · intro i
    show Effect.getFullUser i ∉ _ ++ _
    simp

/-- Other-error sign-in failure environment. -/
def envOther : Env :=
  { envW with signInResult := .error (.other "PHONE_CODE_INVALID") }

theorem claim_C7_witness :
    (async_main envOther).result = .panicked "PHONE_CODE_INVALID" ∧
    Effect.saveSession ∉ (async_main envOther).effects := by
  have h := claim_C7 envOther "+10000000000\n" "12345\n" "PHONE_CODE_INVALID"
    ⟨rfl, rfl, rfl, rfl, rfl, rfl⟩ rfl
  exact ⟨by rw [h.1], h.2.2.1⟩

/-- Claim C9: if the loaded session is already authorized, the entire
sign-in block is skipped: no prompt is shown, no authentication remote
call (`requestLoginCode` / `signIn` / `checkPassword`) is made, no
session save is attempted, and the sign-out-on-exit flag remains false. -/
theorem claim_C9 (env : Env)
    (h1 : env.loadSession = .ok ()) (h2 : env.connect = .ok ())
    (h3 : env.isAuthorized = .ok true) :
    (async_main env).sign_out = false ∧
    (∀ m, Effect.prompt m ∉ (async_main env).effects) ∧
    (∀ s, Effect.requestLoginCode s ∉ (async_main env).effects) ∧
    (∀ s, Effect.signIn s ∉ (async_main env).effects) ∧
    (∀ s, Effect.checkPassword s ∉ (async_main env).effects) ∧
    Effect.saveSession ∉ (async_main env).effects := by
  rw [async_main_authorized env h1 h2 h3]
  refine ⟨runLoopAndShutdown_sign_out env _ false, ?_, ?_, ?_, ?_, ?_⟩
  · intro m
    exact runLoopAndShutdown_not_mem env _ false _ (by simp) rfl (by simp)
  · intro s
    exact runLoopAndShutdown_not_mem env _ false _ (by simp) rfl (by simp)
  · intro s
    exact runLoopAndShutdown_not_mem env _ false _ (by simp) rfl (by simp)
  · intro s
    exact runLoopAndShutdown_not_mem env _ false _ (by simp) rfl (by simp)
  · exact runLoopAndShutdown_not_mem env _ false _ (by simp) rfl (by simp)

/-- Already-authorized environment. -/
def envAuth : Env :=
  { envW with isAuthorized := .ok true }

theorem claim_C9_witness :
    (async_main envAuth).sign_out = false ∧
    Effect.saveSession ∉ (async_main envAuth).effects :=
  ⟨(claim_C9 envAuth rfl rfl rfl).1,
   (claim_C9 envAuth rfl rfl rfl).2.2.2.2.2⟩

/-- Claim C10: the interactive inputs are forwarded asymmetrically: the
string passed to `check_password` is the entered line with surrounding
whitespace trimmed (`strTrim`), whereas the phone number passed to
`request_login_code` and the code passed to `sign_in` are the lines
exactly as `prompt` returned them (raw, with the trailing newline that
`read_line` keeps). -/
theorem claim_C10 (env : Env) (p c : String) (hr : reachesAuth env p c)
    (tok : PasswordToken) (hint pw : String)
    (hsi : env.signInResult = .error (.passwordRequired tok))
    (hhint : tok.hint = some hint)
    (hpw : env.passwordInput = .ok pw) :
    Effect.requestLoginCode p ∈ (async_main env).effects ∧
    Effect.signIn c ∈ (async_main env).effects ∧
    Effect.checkPassword (strTrim pw) ∈ (async_main env).effects ∧
    (∀ s, Effect.requestLoginCode s ∈ (async_main env).effects → s = p) ∧
    (∀ s, Effect.signIn s ∈ (async_main env).effects → s = c) ∧
    (∀ s, Effect.checkPassword s ∈ (async_main env).effects → s = strTrim pw) := by
  obtain ⟨h1, h2, h3, h4, h5, h6⟩ := hr
  cases hcp : env.checkPasswordResult with
  | error e =>
    have ha : authPhase env = .error
        ([Effect.println "Signing in...",
          Effect.prompt "Enter your phone number (international format): ",
          Effect.requestLoginCode p,
          Effect.prompt "Enter the code you received: ",
          Effect.signIn c,
          Effect.prompt ("Enter the password (hint " ++ hint ++ "): "),
          Effect.checkPassword (strTrim pw)], .err e) := by
      simp [authPhase, h4, h5, h6, hsi, hhint, hpw, hcp]
    rw [async_main_auth_error env p c ⟨h1, h2, h3, h4, h5, h6⟩ _ _ ha]
    refine ⟨by simp, by simp, by simp, ?_, ?_, ?_⟩
    · intro s hs
      simp at hs
      exact hs
    · intro s hs
      simp at hs
      exact hs
    · intro s hs
      simp at hs
      exact hs
  | ok w =>
    cases w
    cases hs : env.saveResult with
    | ok v =>
      have ha : authPhase env = .ok
          ([Effect.println "Signing in...",
            Effect.prompt "Enter your phone number (international format): ",
            Effect.requestLoginCode p,
            Effect.prompt "Enter the code you received: ",
            Effect.signIn c,
            Effect.prompt ("Enter the password (hint " ++ hint ++ "): "),
            Effect.checkPassword (strTrim pw),
            Effect.println "Signed in!",
            Effect.saveSession], false) := by
        simp [authPhase, h4, h5, h6, hsi, hhint, hpw, hcp, afterSignIn, hs]
      rw [async_main_auth env p c ⟨h1, h2, h3, h4, h5, h6⟩ _ _ ha]
      refine ⟨?_, ?_, ?_, ?_, ?_, ?_⟩
      · exact (runLoopAndShutdown_mem_iff env _ _
          (Effect.requestLoginCode p) rfl (by simp)).mpr (by simp)
      · exact (runLoopAndShutdown_mem_iff env _ _
          (Effect.signIn c) rfl (by simp)).mpr (by simp)
      · exact (runLoopAndShutdown_mem_iff env _ _
          (Effect.checkPassword (strTrim pw)) rfl (by simp)).mpr (by simp)
      · intro s hs2
        rw [runLoopAndShutdown_mem_iff env _ _
          (Effect.requestLoginCode s) rfl (by simp)] at hs2
        simp at hs2
        exact hs2
      · intro s hs2
        rw [runLoopAndShutdown_mem_iff env _ _
          (Effect.signIn s) rfl (by simp)] at hs2
        simp at hs2
        exact hs2
      · intro s hs2
        rw [runLoopAndShutdown_mem_iff env _ _
          (Effect.checkPassword s) rfl (by simp)] at hs2
        simp at hs2
        exact hs2
    | error e =>
      have ha : authPhase env = .ok
          ([Effect.println "Signing in...",
            Effect.prompt "Enter your phone number (international format): ",
            Effect.requestLoginCode p,
            Effect.prompt "Enter the code you received: ",
            Effect.signIn c,
            Effect.prompt ("Enter the password (hint " ++ hint ++ "): "),
            Effect.checkPassword (strTrim pw),
            Effect.println "Signed in!",
            Effect.saveSession,
            Effect.println
              ("NOTE: failed to save the session, will sign out when done: " ++ e)],
           true) := by
        simp [authPhase, h4, h5, h6, hsi, hhint, hpw, hcp, afterSignIn, hs]
      rw [async_main_auth env p c ⟨h1, h2, h3, h4, h5, h6⟩ _ _ ha]
      refine ⟨?_, ?_, ?_, ?_, ?_, ?_⟩
      · exact (runLoopAndShutdown_mem_iff env _ _
          (Effect.requestLoginCode p) rfl (by simp)).mpr (by simp)
      · exact (runLoopAndShutdown_mem_iff env _ _
          (Effect.signIn c) rfl (by simp)).mpr (by simp)
      · exact (runLoopAndShutdown_mem_iff env _ _
          (Effect.checkPassword (strTrim pw)) rfl (by simp)).mpr (by simp)
      · intro s hs2
        rw [runLoopAndShutdown_mem_iff env _ _
          (Effect.requestLoginCode s) rfl (by simp)] at hs2
        simp at hs2
        exact hs2
      · intro s hs2
        rw [runLoopAndShutdown_mem_iff env _ _
          (Effect.signIn s) rfl (by simp)] at hs2
        simp at hs2
        exact hs2
      · intro s hs2
        rw [runLoopAndShutdown_mem_iff env _ _
          (Effect.checkPassword s) rfl (by simp)] at hs2
        simp at hs2
        exact hs2

theorem claim_C10_witness :
    Effect.requestLoginCode "+10000000000\n" ∈ (async_main envPw).effects ∧
    Effect.signIn "12345\n" ∈ (async_main envPw).effects ∧
    Effect.checkPassword "hunter2" ∈ (async_main envPw).effects := by
  have h := claim_C10 envPw "+10000000000\n" "12345\n"
    ⟨rfl, rfl, rfl, rfl, rfl, rfl⟩ ⟨some "h1nt"⟩ "h1nt" " hunter2 \n" rfl rfl rfl
  have htrim : strTrim " hunter2 \n" = "hunter2" := by decide
  exact ⟨h.1, h.2.1, htrim ▸ h.2.2.1⟩

end GrammersApp
